import Mathlib

/-!
Verification of `nearest_airport.py` (geo-city-airport).

The Python module is shallowly embedded as follows:

* Python floats are modelled by `ℝ` in the geo-math layer (trigonometry,
  distances) and by `ℚ` in the parsing layer (every IEEE double is rational,
  and CSV parsing only produces such values), with a cast `ℚ → ℝ` at the
  boundary.
* `float("inf")` as the initial best distance of the linear scan is modelled
  by an `Option` accumulator: `none` means "no best yet", and every finite
  distance compares below infinity, so the first record always replaces it.
* The effectful cache layer (`load_airports_once`, `get_nearest_airport`)
  is modelled by explicit state passing over a `World` record holding the
  process cache, the parquet store's observable state, oracles for the
  outcomes of network downloads and parquet reads, and a counter of read
  attempts. A Python exception escaping an operation is modelled by `none`
  in the corresponding oracle.
-/

namespace NearestAirport

/-- Degrees to radians, the model of `math.radians`. -/
noncomputable def radians (x : ℝ) : ℝ := x * Real.pi / 180

/-- The haversine `a` sub-expression of `haversine_km`
(`a = sin(dphi/2)**2 + cos_phi1*cos(phi2)*sin(dlambda/2)**2`),
with `phi2 = radians(lat2)`, `dphi = phi2 - phi1`,
`dlambda = radians(lon2 - lon1)`. -/
noncomputable def hav_a (lat1 lon1 lat2 lon2 phi1 cos_phi1 : ℝ) : ℝ :=
  Real.sin ((radians lat2 - phi1) / 2) ^ 2 +
    cos_phi1 * Real.cos (radians lat2) * Real.sin (radians (lon2 - lon1) / 2) ^ 2

/-- Model of `haversine_km(lat1, lon1, lat2, lon2, phi1, cos_phi1)`:
`2 * R * asin(sqrt(a))` with `R = 6371.0088`. -/
noncomputable def haversine_km (lat1 lon1 lat2 lon2 phi1 cos_phi1 : ℝ) : ℝ :=
  2 * (6371.0088 : ℝ) * Real.arcsin (Real.sqrt (hav_a lat1 lon1 lat2 lon2 phi1 cos_phi1))

/-- Variant of the distance function that recomputes the radian conversion and
the cosine of the query latitude inside the formula, per pair, as the spec's
`distanceKm(lat1, lon1, lat2, lon2)` describes (no precomputed arguments). -/
noncomputable def haversine_km_spec (lat1 lon1 lat2 lon2 : ℝ) : ℝ :=
  haversine_km lat1 lon1 lat2 lon2 (radians lat1) (Real.cos (radians lat1))

theorem radians_le_pi_div_two {x : ℝ} (h : x ≤ 90) : radians x ≤ Real.pi / 2 := by
  have hpi := Real.pi_pos
  unfold radians
  nlinarith

theorem neg_pi_div_two_le_radians {x : ℝ} (h : -90 ≤ x) : -(Real.pi / 2) ≤ radians x := by
  have hpi := Real.pi_pos
  unfold radians
  nlinarith

theorem cos_radians_nonneg {x : ℝ} (h1 : -90 ≤ x) (h2 : x ≤ 90) :
    0 ≤ Real.cos (radians x) :=
  Real.cos_nonneg_of_mem_Icc ⟨neg_pi_div_two_le_radians h1, radians_le_pi_div_two h2⟩

theorem hav_a_nonneg (lat1 lon1 lat2 lon2 : ℝ)
    (h3 : -90 ≤ lat2) (h4 : lat2 ≤ 90) (phi1 cos_phi1 : ℝ)
    (hc : 0 ≤ cos_phi1) :
    0 ≤ hav_a lat1 lon1 lat2 lon2 phi1 cos_phi1 := by
  unfold hav_a
  have h2 : 0 ≤ Real.cos (radians lat2) := cos_radians_nonneg h3 h4
  exact add_nonneg (sq_nonneg _) (mul_nonneg (mul_nonneg hc h2) (sq_nonneg _))

theorem hav_a_le_one (lat1 lon1 lat2 lon2 : ℝ)
    (h1 : -90 ≤ lat1) (h2 : lat1 ≤ 90) (h3 : -90 ≤ lat2) (h4 : lat2 ≤ 90) :
    hav_a lat1 lon1 lat2 lon2 (radians lat1) (Real.cos (radians lat1)) ≤ 1 := by
  unfold hav_a
  set p1 := radians lat1 with hp1
  set p2 := radians lat2 with hp2
  have hc1 : 0 ≤ Real.cos p1 := cos_radians_nonneg h1 h2
  have hc2 : 0 ≤ Real.cos p2 := cos_radians_nonneg h3 h4
  have hdbl : Real.cos (2 * ((p2 - p1) / 2)) = 2 * Real.cos ((p2 - p1) / 2) ^ 2 - 1 :=
    Real.cos_two_mul _
  have harg : 2 * ((p2 - p1) / 2) = p2 - p1 := by ring
  rw [harg] at hdbl
  have hs : Real.sin ((p2 - p1) / 2) ^ 2 = 1 - Real.cos ((p2 - p1) / 2) ^ 2 := Real.sin_sq _
  have hcs : Real.cos (p2 - p1) = Real.cos p2 * Real.cos p1 + Real.sin p2 * Real.sin p1 :=
    Real.cos_sub _ _
  have hca : Real.cos (p2 + p1) = Real.cos p2 * Real.cos p1 - Real.sin p2 * Real.sin p1 :=
    Real.cos_add _ _
  have hle : Real.cos (p2 + p1) ≤ 1 := Real.cos_le_one _
  have ht1 : Real.sin (radians (lon2 - lon1) / 2) ^ 2 ≤ 1 := Real.sin_sq_le_one _
  have ht0 : 0 ≤ Real.sin (radians (lon2 - lon1) / 2) ^ 2 := sq_nonneg _
  nlinarith [mul_nonneg (mul_nonneg hc1 hc2)
    (sub_nonneg.mpr ht1)]

/-! ### Python string primitives

Models of the Python string operations the parser uses. `str.strip`
removes ASCII whitespace from both ends; `str.lower` is modelled on ASCII
letters (the CSV fields compared, `"yes"` and the airport types, are ASCII). -/

/-- Whitespace characters recognised by Python `str.strip()`. -/
def isPySpace (c : Char) : Bool :=
  c = ' ' || c = '\t' || c = '\n' || c = '\r' || c = '\x0b' || c = '\x0c'

/-- Model of Python `str.strip()` on a character list. -/
def strip (l : List Char) : List Char :=
  ((l.dropWhile isPySpace).reverse.dropWhile isPySpace).reverse

/-- Model of Python `str.strip()`. -/
def stripStr (s : String) : String := ⟨strip s.toList⟩

/-- ASCII lower-casing of one character. -/
def lowerChar (c : Char) : Char :=
  if 'A' ≤ c && c ≤ 'Z' then Char.ofNat (c.toNat + 32) else c

/-- Model of Python `str.lower()` (ASCII). -/
def lowerStr (s : String) : String := ⟨s.toList.map lowerChar⟩

/-- Split a character list on a separator (auxiliary, with accumulator). -/
def splitOnCharGo (sep : Char) : List Char → List Char → List (List Char)
  | [], acc => [acc.reverse]
  | c :: rest, acc =>
      if c = sep then acc.reverse :: splitOnCharGo sep rest []
      else splitOnCharGo sep rest (c :: acc)

/-- Split a character list on a separator character. -/
def splitOnChar (sep : Char) (l : List Char) : List (List Char) :=
  splitOnCharGo sep l []

/-- Python truthiness of an optional string (`None` and `""` are falsy). -/
def truthyOpt (o : Option String) : Bool :=
  match o with
  | none => false
  | some s => s != ""

/-! ### Python float() model

Every IEEE double is a rational number, so CSV float parsing is modelled as
`String → Option ℚ`. The grammar modelled is sign, decimal digits with an
optional point, and an optional exponent — the forms occurring in the
dataset. (Python's `float` additionally accepts `inf`/`nan` spellings and
digit-group underscores, which are not modelled.) -/

/-- Numeric value of a digit string. -/
def digitsToNat (l : List Char) : ℕ :=
  l.foldl (fun n c => 10 * n + (c.toNat - 48)) 0

/-- Parse the exponent tail (after `e`/`E`) and scale the mantissa. -/
def applyExponent (mant : ℚ) (r : List Char) : Option ℚ :=
  let (esgn, r1) : ℤ × List Char :=
    match r with
    | '+' :: t => (1, t)
    | '-' :: t => (-1, t)
    | t => (1, t)
  let (ed, r2) := r1.span (fun c => c.isDigit)
  if ed = [] || r2 ≠ [] then none
  else some (mant * (10 : ℚ) ^ (esgn * (digitsToNat ed : ℤ)))

/-- Model of Python `float(s)` on decimal literals. -/
def parseFloat (s : String) : Option ℚ :=
  let cs := strip s.toList
  let (sgn, cs1) : ℚ × List Char :=
    match cs with
    | '+' :: r => (1, r)
    | '-' :: r => (-1, r)
    | r => (1, r)
  let (ip, r1) := cs1.span (fun c => c.isDigit)
  let (fp, r2) : List Char × List Char :=
    match r1 with
    | '.' :: r => r.span (fun c => c.isDigit)
    | r => ([], r)
  if ip = [] && fp = [] then none
  else
    let mant : ℚ := sgn * ((digitsToNat ip : ℚ) + (digitsToNat fp : ℚ) / (10 : ℚ) ^ fp.length)
    match r2 with
    | [] => some mant
    | 'e' :: r => applyExponent mant r
    | 'E' :: r => applyExponent mant r
    | _ => none

/-! ### CSV rows and the record filter -/

/-- A raw CSV row as produced by `csv.DictReader`: field name / value pairs. -/
abbrev Row : Type := List (String × String)

/-- Model of `row.get(key)` on a `DictReader` row. A duplicated header key
keeps the last value (Python's `dict(zip(fieldnames, row))`), hence the
lookup on the reversed list; a key missing from a short row yields `none`
(`DictReader` fills it with `None`). -/
def rowGet (r : Row) (k : String) : Option String :=
  (r.reverse.find? (fun p => p.1 == k)).map (fun p => p.2)

/-- Model of the module's helper `get = lambda row, key: (row.get(key) or "").strip()`. -/
def getStripped (r : Row) (k : String) : String :=
  stripStr ((rowGet r k).getD "")

/-- Model of `csv.DictReader(StringIO(text))`: the first non-blank line is
the header, every later non-blank line is zipped with it. Field quoting is
not modelled (fields are split on every comma); blank lines are skipped, a
trailing `\r` is dropped from each line. -/
def dictReaderRows (text : String) : List Row :=
  let dropCR : List Char → List Char := fun l =>
    match l.reverse with
    | '\r' :: t => t.reverse
    | _ => l
  let lines := ((splitOnChar '\n' text.toList).map dropCR).filter (fun l => l ≠ [])
  match lines with
  | [] => []
  | header :: dataLines =>
    let fieldnames := (splitOnChar ',' header).map (fun l => (⟨l⟩ : String))
    dataLines.map (fun line =>
      (fieldnames.zip ((splitOnChar ',' line).map (fun l => (⟨l⟩ : String))) : Row))

/-- Constant `AIRPORT_TYPES = {"large_airport", "medium_airport"}`. -/
def AIRPORT_TYPES : List String := ["large_airport", "medium_airport"]

/-- Constant `REQUIRE_SCHEDULED_SERVICE = True`. -/
def REQUIRE_SCHEDULED_SERVICE : Bool := true

/-- A clean airport record (`{"name": ..., "lat": ..., "lon": ...}`). -/
structure Airport where
  name : String
  lat : ℚ
  lon : ℚ
deriving DecidableEq, Repr

/-- The per-row filter of `_parse_airports_csv`: returns the clean record
for a raw row, or `none` when the row is skipped by a `continue`. Mirrors
the source's check order: type, scheduled service, name and raw coordinate
truthiness, float parsing. -/
def row_to_airport (row : Row) : Option Airport :=
  let tp := getStripped row "type"
  if ¬ (tp ∈ AIRPORT_TYPES) then none
  else if REQUIRE_SCHEDULED_SERVICE &&
      stripStr (lowerStr ((rowGet row "scheduled_service").getD "")) != "yes" then none
  else
    let name := getStripped row "name"
    let lat_s := rowGet row "latitude_deg"
    let lon_s := rowGet row "longitude_deg"
    if name = "" || !truthyOpt lat_s || !truthyOpt lon_s then none
    else
      match parseFloat (lat_s.getD ""), parseFloat (lon_s.getD "") with
      | some la, some lo => some ⟨name, la, lo⟩
      | _, _ => none

/-- Model of `_parse_airports_csv(text)`: the kept records, in row order
(the source's append loop with `continue` is the `filterMap` of the per-row
filter). -/
def parse_airports_csv (text : String) : List Airport :=
  (dictReaderRows text).filterMap row_to_airport

/-! ### Nearest-neighbor linear scan -/

/-- Constant `MAX_AIRPORT_DISTANCE_KM = 300.0`. -/
noncomputable def MAX_AIRPORT_DISTANCE_KM : ℝ := 300.0

/-- The distance computed in the loop body of `nearest_airport`:
`haversine_km(lat, lon, a["lat"], a["lon"], phi1, cos_phi1)`. -/
noncomputable def hdist (lat lon phi1 cos_phi1 : ℝ) (a : Airport) : ℝ :=
  haversine_km lat lon (a.lat : ℝ) (a.lon : ℝ) phi1 cos_phi1

/-- One iteration of the scan loop: replace the best candidate exactly when
the new distance is strictly smaller (`if d < best_dist`). The accumulator
`none` models the initial state `best_name = None, best_dist = inf`: every
finite distance is below infinity, so the first record always replaces it. -/
noncomputable def scan_step (lat lon phi1 cos_phi1 : ℝ)
    (acc : Option (String × ℝ)) (a : Airport) : Option (String × ℝ) :=
  let d := hdist lat lon phi1 cos_phi1 a
  match acc with
  | none => some (a.name, d)
  | some (bn, bd) => if d < bd then some (a.name, d) else some (bn, bd)

/-- The whole scan loop of `nearest_airport`, with `phi1 = radians(lat)` and
`cos_phi1 = cos(phi1)` precomputed before the loop as in the source. -/
noncomputable def scan_best (lat lon : ℝ) (airports : List Airport) :
    Option (String × ℝ) :=
  airports.foldl (scan_step lat lon (radians lat) (Real.cos (radians lat))) none

/-- The distance from the query to one record, as the scan computes it. -/
noncomputable def dist_to (lat lon : ℝ) (a : Airport) : ℝ :=
  hdist lat lon (radians lat) (Real.cos (radians lat)) a

/-- Model of `nearest_airport(lat, lon, airports)` (without `debug` printing):
empty set short-circuits, then the scan, then the radius cut
`if best_dist > MAX_AIRPORT_DISTANCE_KM: return None, None`. -/
noncomputable def nearest_airport (lat lon : ℝ) (airports : List Airport) :
    Option String × Option String :=
  if airports = [] then (none, none)
  else
    match scan_best lat lon airports with
    | none => (none, none)
    | some (bn, bd) =>
        if MAX_AIRPORT_DISTANCE_KM < bd then (none, none) else (some bn, none)

theorem scan_foldl_spec (lat lon phi1 cphi1 : ℝ) (l : List Airport) :
    ∀ (n : String) (d : ℝ),
      ∃ n' d',
        l.foldl (scan_step lat lon phi1 cphi1) (some (n, d)) = some (n', d') ∧
        d' ≤ d ∧
        ((n' = n ∧ d' = d) ∨ ∃ a ∈ l, n' = a.name ∧ d' = hdist lat lon phi1 cphi1 a) ∧
        ∀ b ∈ l, d' ≤ hdist lat lon phi1 cphi1 b := by
  induction l with
  | nil =>
      intro n d
      exact ⟨n, d, rfl, le_refl _, Or.inl ⟨rfl, rfl⟩, by simp⟩
  | cons x t ih =>
      intro n d
      by_cases hx : hdist lat lon phi1 cphi1 x < d
      · have hstep : scan_step lat lon phi1 cphi1 (some (n, d)) x
            = some (x.name, hdist lat lon phi1 cphi1 x) := by
          simp [scan_step, hx]
        obtain ⟨n', d', heq, hle, hwit, hall⟩ := ih x.name (hdist lat lon phi1 cphi1 x)
        refine ⟨n', d', ?_, le_trans hle (le_of_lt hx), ?_, ?_⟩
        · rw [List.foldl_cons, hstep, heq]
        · rcases hwit with ⟨hn, hd⟩ | ⟨a, ha, hn, hd⟩
          · exact Or.inr ⟨x, List.mem_cons_self x t, hn, hd⟩
          · exact Or.inr ⟨a, List.mem_cons_of_mem x ha, hn, hd⟩
        · intro b hb
          rcases List.mem_cons.mp hb with hbx | hbt
          · subst hbx; exact hle
          · exact hall b hbt
      · have hstep : scan_step lat lon phi1 cphi1 (some (n, d)) x = some (n, d) := by
          simp [scan_step, hx]
        obtain ⟨n', d', heq, hle, hwit, hall⟩ := ih n d
        refine ⟨n', d', ?_, hle, ?_, ?_⟩
        · rw [List.foldl_cons, hstep, heq]
        · rcases hwit with hkeep | ⟨a, ha, hn, hd⟩
          · exact Or.inl hkeep
          · exact Or.inr ⟨a, List.mem_cons_of_mem x ha, hn, hd⟩
        · intro b hb
          rcases List.mem_cons.mp hb with hbx | hbt
          · subst hbx; exact le_trans hle (not_lt.mp hx)
          · exact hall b hbt

/-- C1: for every query coordinate pair and every non-empty airport list, the
scan of `nearest_airport` selects a record whose haversine distance to the
query is a global minimum: less than or equal to the distance of every other
record in the list. -/
theorem nearest_airport_selects_global_min (lat lon : ℝ) (airports : List Airport)
    (h : airports ≠ []) :
    ∃ a ∈ airports,
      scan_best lat lon airports = some (a.name, dist_to lat lon a) ∧
      ∀ b ∈ airports, dist_to lat lon a ≤ dist_to lat lon b := by
  match airports, h with
  | x :: t, _ =>
    have hstep : scan_step lat lon (radians lat) (Real.cos (radians lat)) none x
        = some (x.name, dist_to lat lon x) := rfl
    obtain ⟨n', d', heq, hle, hwit, hall⟩ :=
      scan_foldl_spec lat lon (radians lat) (Real.cos (radians lat)) t x.name
        (dist_to lat lon x)
    have hfold : scan_best lat lon (x :: t) = some (n', d') := by
      unfold scan_best
      rw [List.foldl_cons, hstep, heq]
    rcases hwit with ⟨hn, hd⟩ | ⟨a, ha, hn, hd⟩
    · refine ⟨x, List.mem_cons_self x t, ?_, ?_⟩
      · rw [hfold, hn, hd]
      · intro b hb
        rcases List.mem_cons.mp hb with hbx | hbt
        · subst hbx; exact le_refl _
        · have := hall b hbt
          rw [← hd]
          exact this
    · refine ⟨a, List.mem_cons_of_mem x ha, ?_, ?_⟩
      · rw [hfold, hn, hd]; rfl
      · intro b hb
        have hda : d' = dist_to lat lon a := hd
        rcases List.mem_cons.mp hb with hbx | hbt
        · subst hbx; rw [← hda]; exact hle
        · rw [← hda]; exact hall b hbt

/-- C1 witness: a concrete one-record list is non-empty and the scan selects
that record as the global minimum. -/
theorem nearest_airport_selects_global_min_witness :
    ([⟨"A", 0, 0⟩] : List Airport) ≠ [] ∧
    ∃ a ∈ ([⟨"A", 0, 0⟩] : List Airport),
      scan_best 0 0 [⟨"A", 0, 0⟩] = some (a.name, dist_to 0 0 a) ∧
      ∀ b ∈ ([⟨"A", 0, 0⟩] : List Airport), dist_to 0 0 a ≤ dist_to 0 0 b :=
  ⟨by simp, nearest_airport_selects_global_min 0 0 [⟨"A", 0, 0⟩] (by simp)⟩

/-- C6: tie-break determinism. If the scan over `l` finished with best pair
`(n, d)` and a further record `b` lies at exactly distance `d`, scanning
`l ++ [b]` returns the same `(n, d)`: the strict less-than comparison means a
later record with an equal distance never replaces the current best, so the
earlier record wins the tie. -/
theorem nearest_airport_tie_keeps_earlier (lat lon : ℝ) (l : List Airport)
    (b : Airport) (n : String) (d : ℝ)
    (h : scan_best lat lon l = some (n, d)) (hb : dist_to lat lon b = d) :
    scan_best lat lon (l ++ [b]) = some (n, d) := by
  unfold scan_best at h ⊢
  rw [List.foldl_append, h]
  have hbd : hdist lat lon (radians lat) (Real.cos (radians lat)) b = d := hb
  simp [scan_step, hbd]

/-- C6 witness: scanning one record, then a second record at exactly the same
distance (same coordinates), keeps the earlier record. -/
theorem nearest_airport_tie_keeps_earlier_witness :
    scan_best 0 0 [⟨"A", 1, 2⟩] = some ("A", dist_to 0 0 ⟨"A", 1, 2⟩) ∧
    dist_to 0 0 (⟨"B", 1, 2⟩ : Airport) = dist_to 0 0 ⟨"A", 1, 2⟩ ∧
    scan_best 0 0 ([⟨"A", 1, 2⟩] ++ [⟨"B", 1, 2⟩]) = some ("A", dist_to 0 0 ⟨"A", 1, 2⟩) :=
  ⟨rfl, rfl,
    nearest_airport_tie_keeps_earlier 0 0 [⟨"A", 1, 2⟩] ⟨"B", 1, 2⟩ "A"
      (dist_to 0 0 ⟨"A", 1, 2⟩) rfl rfl⟩

/-- C5: after the scan, a best distance strictly above
`MAX_AIRPORT_DISTANCE_KM` yields not-found (`None` name); a best distance
within the radius yields the winning record's name. -/
theorem nearest_airport_radius_cut (lat lon : ℝ) (airports : List Airport)
    (n : String) (d : ℝ) (h : scan_best lat lon airports = some (n, d)) :
    (MAX_AIRPORT_DISTANCE_KM < d → nearest_airport lat lon airports = (none, none)) ∧
    (d ≤ MAX_AIRPORT_DISTANCE_KM → nearest_airport lat lon airports = (some n, none)) := by
  have hne : airports ≠ [] := by
    intro he
    rw [he] at h
    simp [scan_best] at h
  constructor <;> intro hcmp <;>
    · unfold nearest_airport
      rw [if_neg hne, h]
      simp only []
      first
        | rw [if_pos hcmp]
        | rw [if_neg (not_lt.mpr hcmp)]

theorem radians_zero : radians 0 = 0 := by
  unfold radians; ring

theorem dist_to_origin_self : dist_to 0 0 (⟨"A", 0, 0⟩ : Airport) = 0 := by
  have ha : hav_a 0 0 ((0 : ℚ) : ℝ) ((0 : ℚ) : ℝ) (radians 0) (Real.cos (radians 0)) = 0 := by
    unfold hav_a
    rw [show ((0 : ℚ) : ℝ) - (0 : ℝ) = 0 by norm_num, show ((0 : ℚ) : ℝ) = (0 : ℝ) by norm_num,
      radians_zero]
    simp [Real.sin_zero]
  unfold dist_to hdist haversine_km
  rw [ha]
  simp [Real.sqrt_zero, Real.arcsin_zero]

/-- C5 witness: a concrete scan result whose best distance (zero: the single
record sits at the query point) is within the radius, so the winning record's
name is returned. -/
theorem nearest_airport_radius_cut_witness :
    scan_best 0 0 [⟨"A", 0, 0⟩] = some ("A", dist_to 0 0 ⟨"A", 0, 0⟩) ∧
    dist_to 0 0 (⟨"A", 0, 0⟩ : Airport) ≤ MAX_AIRPORT_DISTANCE_KM ∧
    nearest_airport 0 0 [⟨"A", 0, 0⟩] = (some "A", none) := by
  have hle : dist_to 0 0 (⟨"A", 0, 0⟩ : Airport) ≤ MAX_AIRPORT_DISTANCE_KM := by
    rw [dist_to_origin_self]; unfold MAX_AIRPORT_DISTANCE_KM; norm_num
  exact ⟨rfl, hle,
    (nearest_airport_radius_cut 0 0 [⟨"A", 0, 0⟩] "A" (dist_to 0 0 ⟨"A", 0, 0⟩) rfl).2 hle⟩

/-- C8: for valid coordinates, with `phi1` and `cos_phi1` computed from the
first point as `nearest_airport` does, the argument of the square root in
`haversine_km` is non-negative, the argument of `asin` lies in `[-1, 1]`, and
the returned distance is non-negative — no domain error can occur, and in
this real-number model the value is a finite real. -/
theorem haversine_km_safe (lat1 lon1 lat2 lon2 phi1 cos_phi1 : ℝ)
    (h1 : -90 ≤ lat1) (h2 : lat1 ≤ 90) (h3 : -90 ≤ lat2) (h4 : lat2 ≤ 90)
    (h5 : -180 ≤ lon1) (h6 : lon1 ≤ 180) (h7 : -180 ≤ lon2) (h8 : lon2 ≤ 180)
    (hp : phi1 = radians lat1) (hc : cos_phi1 = Real.cos phi1) :
    0 ≤ hav_a lat1 lon1 lat2 lon2 phi1 cos_phi1 ∧
    -1 ≤ Real.sqrt (hav_a lat1 lon1 lat2 lon2 phi1 cos_phi1) ∧
    Real.sqrt (hav_a lat1 lon1 lat2 lon2 phi1 cos_phi1) ≤ 1 ∧
    0 ≤ haversine_km lat1 lon1 lat2 lon2 phi1 cos_phi1 := by
  subst hp
  subst hc
  have ha0 : 0 ≤ hav_a lat1 lon1 lat2 lon2 (radians lat1) (Real.cos (radians lat1)) :=
    hav_a_nonneg lat1 lon1 lat2 lon2 h3 h4 _ _ (cos_radians_nonneg h1 h2)
  have ha1 : hav_a lat1 lon1 lat2 lon2 (radians lat1) (Real.cos (radians lat1)) ≤ 1 :=
    hav_a_le_one lat1 lon1 lat2 lon2 h1 h2 h3 h4
  refine ⟨ha0, le_trans (by norm_num) (Real.sqrt_nonneg _), Real.sqrt_le_one.mpr ha1, ?_⟩
  unfold haversine_km
  have harc : 0 ≤ Real.arcsin (Real.sqrt
      (hav_a lat1 lon1 lat2 lon2 (radians lat1) (Real.cos (radians lat1)))) :=
    Real.arcsin_nonneg.mpr (Real.sqrt_nonneg _)
  nlinarith

/-- C8 witness: the safety bounds instantiated at the concrete valid
coordinates (0, 0) and (45, 90). -/
theorem haversine_km_safe_witness :
    0 ≤ hav_a 0 0 45 90 (radians 0) (Real.cos (radians 0)) ∧
    -1 ≤ Real.sqrt (hav_a 0 0 45 90 (radians 0) (Real.cos (radians 0))) ∧
    Real.sqrt (hav_a 0 0 45 90 (radians 0) (Real.cos (radians 0))) ≤ 1 ∧
    0 ≤ haversine_km 0 0 45 90 (radians 0) (Real.cos (radians 0)) :=
  haversine_km_safe 0 0 45 90 (radians 0) (Real.cos (radians 0))
    (by norm_num) (by norm_num) (by norm_num) (by norm_num)
    (by norm_num) (by norm_num) (by norm_num) (by norm_num) rfl rfl

/-- C9: precomputation equivalence. The distance computed by `haversine_km`
with `phi1 = radians(lat1)` and `cos_phi1 = cos(phi1)` precomputed (as
`nearest_airport` does once per search) is exactly equal — not merely within
floating-point tolerance — to the spec's per-pair recomputation
`haversine_km_spec`; and the per-candidate distance used by the scan is that
same value. -/
theorem haversine_precompute_equiv :
    (∀ lat1 lon1 lat2 lon2 phi1 cos_phi1 : ℝ,
      phi1 = radians lat1 → cos_phi1 = Real.cos phi1 →
      haversine_km lat1 lon1 lat2 lon2 phi1 cos_phi1 =
        haversine_km_spec lat1 lon1 lat2 lon2) ∧
    (∀ (lat lon : ℝ) (a : Airport),
      dist_to lat lon a = haversine_km_spec lat lon (a.lat : ℝ) (a.lon : ℝ)) := by
  constructor
  · intro lat1 lon1 lat2 lon2 phi1 cos_phi1 hp hc
    subst hp; subst hc; rfl
  · intro lat lon a; rfl

/-- C9 witness: the precomputed and per-pair forms agree at concrete
arguments. -/
theorem haversine_precompute_equiv_witness :
    haversine_km 10 20 30 40 (radians 10) (Real.cos (radians 10)) =
      haversine_km_spec 10 20 30 40 :=
  haversine_precompute_equiv.1 10 20 30 40 (radians 10) (Real.cos (radians 10)) rfl rfl

/-! ### The filter against the spec's wording -/

/-- The row predicate as the spec states it (§4.3 / C7): keep a row exactly
when its category is in {large_airport, medium_airport}, its
scheduled-service flag equals "yes" case-insensitively (the
require-scheduled-service policy is enabled), its name is non-empty, and its
latitude/longitude parse as floats. Written as one conjunction over the row,
independent of the source's sequential check order. -/
def spec_keep (row : Row) : Option Airport :=
  match parseFloat ((rowGet row "latitude_deg").getD ""),
      parseFloat ((rowGet row "longitude_deg").getD "") with
  | some la, some lo =>
      if getStripped row "type" ∈ AIRPORT_TYPES ∧
          stripStr (lowerStr ((rowGet row "scheduled_service").getD "")) = "yes" ∧
          getStripped row "name" ≠ ""
      then some ⟨getStripped row "name", la, lo⟩ else none
  | _, _ => none

theorem parseFloat_empty : parseFloat "" = none := rfl

theorem notTruthy_parseFloat_none (o : Option String) (h : truthyOpt o = false) :
    parseFloat (o.getD "") = none := by
  cases o with
  | none => exact parseFloat_empty
  | some s =>
      have hs : s = "" := by simpa [truthyOpt] using h
      subst hs
      exact parseFloat_empty

theorem row_to_airport_eq_spec_keep (row : Row) :
    row_to_airport row = spec_keep row := by
  unfold row_to_airport spec_keep REQUIRE_SCHEDULED_SERVICE
  rcases hla : parseFloat ((rowGet row "latitude_deg").getD "") with _ | la <;>
    rcases hlo : parseFloat ((rowGet row "longitude_deg").getD "") with _ | lo <;>
    by_cases h1 : getStripped row "type" ∈ AIRPORT_TYPES <;>
    by_cases h2 : stripStr (lowerStr ((rowGet row "scheduled_service").getD "")) = "yes" <;>
    by_cases h3 : getStripped row "name" = "" <;>
    rcases h4 : truthyOpt (rowGet row "latitude_deg") <;>
    rcases h5 : truthyOpt (rowGet row "longitude_deg") <;>
    first
      | (exfalso
         first
           | exact Option.noConfusion ((notTruthy_parseFloat_none _ h4).symm.trans hla)
           | exact Option.noConfusion ((notTruthy_parseFloat_none _ h5).symm.trans hlo))
      | simp_all

/-- C7: `_parse_airports_csv` keeps exactly the rows the spec describes —
accepted category, scheduled service "yes" case-insensitively, non-empty
name, parseable coordinates — each failing row is excluded with no error (the
function is total and the excluded row simply contributes nothing), and the
output follows the input row order (`filterMap` preserves order). -/
theorem parse_airports_csv_keeps_exactly_spec_rows (text : String) :
    parse_airports_csv text = (dictReaderRows text).filterMap spec_keep := by
  unfold parse_airports_csv
  rw [show row_to_airport = spec_keep from funext row_to_airport_eq_spec_keep]

theorem parse_bad_csv_eval :
    parse_airports_csv
      "type,scheduled_service,name,latitude_deg,longitude_deg\nlarge_airport,yes,Bad,95,181"
      = [⟨"Bad", 95, 181⟩] := by
  have e : parse_airports_csv
      "type,scheduled_service,name,latitude_deg,longitude_deg\nlarge_airport,yes,Bad,95,181"
      = [⟨"Bad",
          1 * ((digitsToNat ['9', '5'] : ℚ)
            + (digitsToNat [] : ℚ) / 10 ^ (List.length ([] : List Char))),
          1 * ((digitsToNat ['1', '8', '1'] : ℚ)
            + (digitsToNat [] : ℚ) / 10 ^ (List.length ([] : List Char)))⟩] := rfl
  rw [e, show digitsToNat ['9', '5'] = 95 from by decide,
    show digitsToNat ['1', '8', '1'] = 181 from by decide,
    show digitsToNat [] = 0 from rfl]
  norm_num

/-- C2 counterexample: a CSV row with latitude 95 and longitude 181 passes
every check of `_parse_airports_csv` (the code never validates coordinate
bounds), so the claimed invariant is false on this concrete input. -/
theorem parse_airports_bounds_counterexample :
    ¬ (∀ a ∈ parse_airports_csv
        "type,scheduled_service,name,latitude_deg,longitude_deg\nlarge_airport,yes,Bad,95,181",
        -90 ≤ a.lat ∧ a.lat ≤ 90 ∧ -180 ≤ a.lon ∧ a.lon ≤ 180 ∧ a.name ≠ "") := by
  intro hall
  have hmem : (⟨"Bad", 95, 181⟩ : Airport) ∈ parse_airports_csv
      "type,scheduled_service,name,latitude_deg,longitude_deg\nlarge_airport,yes,Bad,95,181" := by
    rw [parse_bad_csv_eval]
    exact List.mem_singleton.mpr rfl
  have hb := (hall _ hmem).2.1
  norm_num at hb

/-- C2 amended: every record produced by `_parse_airports_csv` has a
non-empty name (that part of the invariant holds); coordinate bounds are not
checked, so out-of-range coordinates can appear in the output. -/
theorem parse_airports_nonempty_name (text : String) :
    ∀ a ∈ parse_airports_csv text, a.name ≠ "" := by
  intro a ha
  unfold parse_airports_csv at ha
  rcases List.mem_filterMap.mp ha with ⟨row, _, hrow⟩
  rw [row_to_airport_eq_spec_keep] at hrow
  unfold spec_keep at hrow
  rcases hla : parseFloat ((rowGet row "latitude_deg").getD "") with _ | la <;>
    rcases hlo : parseFloat ((rowGet row "longitude_deg").getD "") with _ | lo <;>
    simp [hla, hlo] at hrow
  obtain ⟨⟨h1, h2, h3⟩, ha'⟩ := hrow
  rw [← ha']
  exact h3

theorem parse_good_csv_eval :
    parse_airports_csv
      "type,scheduled_service,name,latitude_deg,longitude_deg\nlarge_airport,yes,Alpha,1,2"
      = [⟨"Alpha", 1, 2⟩] := by
  have e : parse_airports_csv
      "type,scheduled_service,name,latitude_deg,longitude_deg\nlarge_airport,yes,Alpha,1,2"
      = [⟨"Alpha",
          1 * ((digitsToNat ['1'] : ℚ)
            + (digitsToNat [] : ℚ) / 10 ^ (List.length ([] : List Char))),
          1 * ((digitsToNat ['2'] : ℚ)
            + (digitsToNat [] : ℚ) / 10 ^ (List.length ([] : List Char)))⟩] := rfl
  rw [e, show digitsToNat ['1'] = 1 from by decide, show digitsToNat ['2'] = 2 from by decide,
    show digitsToNat [] = 0 from rfl]
  norm_num

/-- C2 amended witness: a concrete parse output record, with its non-empty
name. -/
theorem parse_airports_nonempty_name_witness :
    (⟨"Alpha", 1, 2⟩ : Airport) ∈ parse_airports_csv
      "type,scheduled_service,name,latitude_deg,longitude_deg\nlarge_airport,yes,Alpha,1,2" ∧
    (⟨"Alpha", 1, 2⟩ : Airport).name ≠ "" :=
  ⟨by rw [parse_good_csv_eval]; exact List.mem_singleton.mpr rfl,
    parse_airports_nonempty_name _ _
      (by rw [parse_good_csv_eval]; exact List.mem_singleton.mpr rfl)⟩

/-! ### The effectful cache layer

`load_airports_once` and `get_nearest_airport` are embedded as pure state
transformers over a `World`. The lock (`_AIRPORTS_LOCK`) serialises the body,
so one call is one atomic state transition and is modelled directly; `debug`
printing is omitted. Oracles fix the outcome of each effect: a network
download yields `none` for a `requests` exception, a parquet read consumes
the next entry of `parquetReads` (`none` for an exception), a parquet write
succeeds iff `writeOk` (an exception is swallowed by the caller's
`try/except`). `readAttempts` counts `_read_parquet` calls. -/

structure World where
  cache : List Airport
  parquetExists : Bool
  parquetFresh : Bool
  parquetReads : List (Option (List Airport))
  readAttempts : ℕ
  primaryText : Option String
  fallbackText : Option String
  writeOk : Bool
deriving DecidableEq, Repr

/-- Model of `_parquet_is_fresh(PARQUET_FILE)`: the file exists and its age
is below the TTL (the age comparison is abstracted to the Boolean
`parquetFresh`). -/
def parquet_is_fresh (w : World) : Bool :=
  w.parquetExists && w.parquetFresh

/-- Model of `_read_parquet()`: consumes the next read outcome from the
oracle (`none` models a raised exception) and counts the attempt. -/
def read_parquet (w : World) : Option (List Airport) × World :=
  (w.parquetReads.headD none,
    { w with parquetReads := w.parquetReads.tail, readAttempts := w.readAttempts + 1 })

/-- Model of `_write_parquet(airports)` under the caller's `try/except`:
an empty list is not saved; on success the store now exists and is fresh;
a write failure (`writeOk = false`) is swallowed and changes nothing. -/
def write_parquet (airports : List Airport) (w : World) : World :=
  if airports = [] then w
  else if w.writeOk then { w with parquetExists := true, parquetFresh := true } else w

/-- Model of `txt = _download_text(OURAIRPORTS_PRIMARY) or
_download_text(OURAIRPORTS_FALLBACK)`: Python `or` takes the fallback when
the primary result is falsy (`None` or `""`). -/
def downloaded_text (w : World) : Option String :=
  if truthyOpt w.primaryText then w.primaryText else w.fallbackText

/-- Model of `airports = _parse_airports_csv(txt) if txt else []` (step 2 of
`load_airports_once`). -/
def fetched_airports (w : World) : List Airport :=
  match downloaded_text w with
  | some s => if s ≠ "" then parse_airports_csv s else []
  | none => []

/-- Steps 2–6 of `load_airports_once`: download and parse, persist a
non-empty result, fall back to the existing store when the fetch produced
nothing, assign the process cache and return. -/
def load_rest (w : World) : List Airport × World :=
  let airports := fetched_airports w
  let w1 := if airports ≠ [] then write_parquet airports w else w
  if airports = [] ∧ w1.parquetExists = true then
    match read_parquet w1 with
    | (some aps, w2) => (aps, { w2 with cache := aps })
    | (none, w2) => ([], { w2 with cache := [] })
  else (airports, { w1 with cache := airports })

/-- The body of `load_airports_once` past the populated-cache short-circuit:
step 1 (fresh parquet, with a failed read falling through to the download),
then `load_rest`. -/
def load_uncached (force_refresh : Bool) (w : World) : List Airport × World :=
  if force_refresh = false ∧ parquet_is_fresh w = true then
    match read_parquet w with
    | (some aps, w1) => (aps, { w1 with cache := aps })
    | (none, w1) => load_rest w1
  else load_rest w

/-- Model of `load_airports_once(force_refresh)`:
`if _AIRPORTS_CACHE and not force_refresh: return _AIRPORTS_CACHE`, else the
load chain. -/
def load_airports_once (force_refresh : Bool) (w : World) : List Airport × World :=
  if w.cache ≠ [] ∧ force_refresh = false then (w.cache, w)
  else load_uncached force_refresh w

/-- The `{"airport": ..., "error": ...}` result record. -/
structure LookupResult where
  airport : Option String
  error : Option String
deriving DecidableEq, Repr

/-- Model of `get_nearest_airport(lat, lon, refresh_airports=...)`:
coordinate validation, then load, then scan; the final dict maps falsy
(`None` or empty) fields to `None`. -/
noncomputable def get_nearest_airport (lat lon : ℝ) (refresh_airports : Bool)
    (w : World) : LookupResult × World :=
  if ¬ (-90 ≤ lat ∧ lat ≤ 90 ∧ -180 ≤ lon ∧ lon ≤ 180) then
    ({ airport := none, error := some "Invalid coordinates" }, w)
  else
    let (airports, w1) := load_airports_once refresh_airports w
    let (airport, err) := nearest_airport lat lon airports
    let airportField : Option String :=
      match airport with
      | some s => if s ≠ "" then some s else none
      | none => none
    let errorField : Option String :=
      match err with
      | some s => if s ≠ "" then some s else none
      | none => none
    ({ airport := airportField, error := errorField }, w1)

theorem load_rest_cache_eq (w : World) :
    ((load_rest w).2).cache = (load_rest w).1 := by
  by_cases h1 : fetched_airports w = []
  · by_cases hex : w.parquetExists = true
    · rcases hl : w.parquetReads with _ | ⟨r, rest⟩
      · simp [load_rest, h1, hex, read_parquet, hl]
      · cases r <;> simp [load_rest, h1, hex, read_parquet, hl]
    · simp [load_rest, h1, hex]
  · simp [load_rest, h1]

/-- C3: no tier of `load_airports_once` raises (the model is a total
function); whenever the fetch/normalize step produces an empty set and the
persisted store file exists — regardless of freshness or why the fetch
failed — the store is read as a last-resort fallback (exactly one read
attempt is made), the result is whatever that read yields, and if the read
also fails the result is the empty set rather than an error. The second
part shows the claim applies to `load_airports_once` itself: whenever the
populated-cache and fresh-store tiers do not short-circuit, it runs exactly
these steps. -/
theorem load_airports_once_empty_fetch_fallback :
    (∀ w : World, fetched_airports w = [] → w.parquetExists = true →
      ((load_rest w).2).readAttempts = w.readAttempts + 1 ∧
      (load_rest w).1 = (w.parquetReads.headD none).getD [] ∧
      (w.parquetReads.headD none = none → (load_rest w).1 = [])) ∧
    (∀ (w : World) (force : Bool),
      (force = true ∨ w.cache = []) →
      (force = true ∨ parquet_is_fresh w = false) →
      load_airports_once force w = load_rest w) := by
  constructor
  · intro w h hex
    rcases hl : w.parquetReads with _ | ⟨r, rest⟩
    · simp [load_rest, h, hex, read_parquet, hl]
    · cases r <;> simp [load_rest, h, hex, read_parquet, hl]
  · intro w force hf hfresh
    cases force with
    | true =>
        unfold load_airports_once load_uncached
        simp
    | false =>
        have hc : w.cache = [] := by
          rcases hf with h | h
          · exact absurd h (by simp)
          · exact h
        have hfr : parquet_is_fresh w = false := by
          rcases hfresh with h | h
          · exact absurd h (by simp)
          · exact h
        unfold load_airports_once load_uncached
        simp [hc, hfr]

/-- C3 witness: a world where both downloads fail, the store exists but is
stale, the cache is empty, and the single read attempt also fails: the read
is attempted, and every tier having failed, the empty set is returned. -/
theorem load_airports_once_empty_fetch_fallback_witness :
    ((load_rest (World.mk [] true false [none] 0 none none true)).2).readAttempts
        = (World.mk [] true false [none] 0 none none true).readAttempts + 1 ∧
    (load_rest (World.mk [] true false [none] 0 none none true)).1
        = ((World.mk [] true false [none] 0 none none true).parquetReads.headD none).getD [] ∧
    ((World.mk [] true false [none] 0 none none true).parquetReads.headD none = none →
      (load_rest (World.mk [] true false [none] 0 none none true)).1 = []) ∧
    load_airports_once false (World.mk [] true false [none] 0 none none true)
        = load_rest (World.mk [] true false [none] 0 none none true) := by
  obtain ⟨h1, h2, h3⟩ :=
    load_airports_once_empty_fetch_fallback.1
      (World.mk [] true false [none] 0 none none true) rfl rfl
  exact ⟨h1, h2, h3,
    load_airports_once_empty_fetch_fallback.2
      (World.mk [] true false [none] 0 none none true) false (Or.inr rfl) (Or.inr rfl)⟩

/-- C4: for every latitude outside [-90, 90] or longitude outside
[-180, 180], `get_nearest_airport` returns
`{"airport": None, "error": "Invalid coordinates"}` and returns the world
unchanged: the process cache slot, the persisted store state and the read
counter are untouched, so no load is triggered. -/
theorem get_nearest_airport_invalid_coords (lat lon : ℝ) (refresh : Bool)
    (w : World) (h : lat < -90 ∨ 90 < lat ∨ lon < -180 ∨ 180 < lon) :
    get_nearest_airport lat lon refresh w
      = ({ airport := none, error := some "Invalid coordinates" }, w) := by
  unfold get_nearest_airport
  rw [if_pos]
  rintro ⟨h1, h2, h3, h4⟩
  rcases h with h | h | h | h <;> linarith

/-- C4 witness: both spec examples, `getNearestAirport(91, 0, ...)` and
`getNearestAirport(0, 181, ...)`, on a concrete world. -/
theorem get_nearest_airport_invalid_coords_witness :
    get_nearest_airport 91 0 false (World.mk [] true true [] 0 none none true)
      = ({ airport := none, error := some "Invalid coordinates" },
          World.mk [] true true [] 0 none none true) ∧
    get_nearest_airport 0 181 false (World.mk [] true true [] 0 none none true)
      = ({ airport := none, error := some "Invalid coordinates" },
          World.mk [] true true [] 0 none none true) :=
  ⟨get_nearest_airport_invalid_coords 91 0 false _ (Or.inr (Or.inl (by norm_num))),
    get_nearest_airport_invalid_coords 0 181 false _
      (Or.inr (Or.inr (Or.inr (by norm_num))))⟩

/-- C10: an empty load result is never treated as a populated cache. First:
every call of `load_airports_once` assigns its result — possibly the empty
list — to the cache slot of the final world. Second: when the cached list is
empty, a call with `force_refresh = false` fails the populated-cache
short-circuit (`if _AIRPORTS_CACHE and not force_refresh`) and re-executes
the full load chain `load_uncached` (fresh-parquet check, download,
fallback) instead of returning the cached empty set. -/
theorem load_airports_once_empty_cache_reloads :
    (∀ (force : Bool) (w : World),
      ((load_airports_once force w).2).cache = (load_airports_once force w).1) ∧
    (∀ w : World, w.cache = [] →
      load_airports_once false w = load_uncached false w) := by
  constructor
  · intro force w
    unfold load_airports_once
    by_cases hc : w.cache ≠ [] ∧ force = false
    · rw [if_pos hc]
    · rw [if_neg hc]
      unfold load_uncached
      by_cases hs : force = false ∧ parquet_is_fresh w = true
      · rw [if_pos hs]
        rcases hr : read_parquet w with ⟨r, w1⟩
        cases r with
        | none => exact load_rest_cache_eq w1
        | some aps => rfl
      · rw [if_neg hs]
        exact load_rest_cache_eq w
  · intro w h
    unfold load_airports_once
    rw [if_neg]
    rintro ⟨hne, _⟩
    exact hne h

/-- C10 witness: with an empty cache slot and a fresh readable store, the
call assigns its result to the cache and does not short-circuit. -/
theorem load_airports_once_empty_cache_reloads_witness :
    ((load_airports_once false (World.mk [] true true [some [⟨"A", 1, 2⟩]] 0 none none true)).2).cache
      = (load_airports_once false (World.mk [] true true [some [⟨"A", 1, 2⟩]] 0 none none true)).1 ∧
    load_airports_once false (World.mk [] true true [some [⟨"A", 1, 2⟩]] 0 none none true)
      = load_uncached false (World.mk [] true true [some [⟨"A", 1, 2⟩]] 0 none none true) :=
  ⟨load_airports_once_empty_cache_reloads.1 false _,
    load_airports_once_empty_cache_reloads.2 _ rfl⟩

end NearestAirport
